import Mathlib

/-!
# Verification of the eth-kms-signer core

Shallow embedding of the algorithmic core of the eth-kms-signer repository
(src/core/signing.ts, src/core/setup.ts, src/core/constants.ts) together
with proofs about the embedded definitions.  Bytes are modelled as `Nat`
values, buffers as `List Nat`, JavaScript BigInt arithmetic as `Nat`
arithmetic, thrown exceptions as `Except String`, and the external
collaborators (AWS KMS, the RPC node, the transaction libraries,
Keccak-256, checksum casing) as explicit function parameters.

The repository file signing.ts contains two concatenated historical
revisions of the same module; definitions below are taken from the first
revision (lines 1-500) unless marked `rev2`, which embeds the second
(ethers-based) revision (lines 502-881).
-/

namespace EthKmsSigner

/-! ### Byte-level utilities

`bytesToNat` models reading a big-endian buffer as an unsigned big integer
(JS `BigInt` of the hex rendering of the buffer); `natToBytesBE` models
rendering to hex padded to `2*w` digits and reading the bytes back. -/

/-- Big-endian interpretation of a byte list as a natural number. -/
def bytesToNat (l : List Nat) : Nat :=
  l.foldl (fun acc b => acc * 256 + b) 0

/-- Big-endian encoding of `n` into exactly `w` bytes (most significant
first), truncating above `256 ^ w`. -/
def natToBytesBE : Nat → Nat → List Nat
  | 0, _ => []
  | w + 1, n => natToBytesBE w (n / 256) ++ [n % 256]

/-- Model of `buf.slice(start, stop)` on byte buffers: clamps to the buffer
and is empty when `stop ≤ start`. -/
def jsSlice (l : List Nat) (start stop : Nat) : List Nat :=
  (l.drop start).take (stop - start)

/-- Lowercase hex rendering of a number, as JS `n.toString(16)`. -/
def natToHexStr (n : Nat) : String := String.mk (Nat.toDigits 16 n)

/-- Lowercase hex rendering of a byte buffer, two digits per byte, as JS
`buf.toString(hex)`. -/
def bytesToHex (l : List Nat) : String :=
  String.join (l.map fun b => String.mk [Nat.digitChar (b / 16 % 16), Nat.digitChar (b % 16)])

/-- JS truthiness of an optional string field: absent and empty strings are
falsy. -/
def truthyStr (o : Option String) : Bool :=
  match o with
  | some s => s != ""
  | none => false

/-- JS truthiness of an optional number field: absent and `0` are falsy. -/
def truthyNat (o : Option Nat) : Bool :=
  match o with
  | some n => n != 0
  | none => false

/-! ### DER ECDSA signature parsing (signTransaction, signing.ts lines 329-374)

The source walks the buffer with manual offsets:
```
if (derSignature[0] !== 0x30) throw ...          // SEQUENCE tag
offset = 2                                        // skips tag + length byte;
                                                  // the length is never checked
if (derSignature[2] !== 0x02) throw ...           // INTEGER tag for r
rLength = derSignature[3]
rStart  = 4 (+1 when derSignature[4] === 0 && rLength > 1)
r       = derSignature.slice(rStart, 4 + rLength)
offset  = 4 + rLength
if (offset >= length || derSignature[offset] !== 0x02) throw ...
sLength = derSignature[offset + 1]
sStart  = offset + 2 (+1 when padding byte present)
s       = derSignature.slice(sStart, offset + 2 + sLength)
```
Out-of-range JS reads yield `undefined`; we model a read as `l[i]?`.  When
`derSignature[3]` is out of range the JS arithmetic produces `NaN` offsets,
`derSignature[NaN]` is `undefined` and the s INTEGER-tag check throws; when
`derSignature[offset+1]` is out of range, `slice(sStart, NaN)` is empty and
the parse succeeds with `s = []`.  Both behaviours are reproduced
literally below. -/

/-- DER ECDSA signature parser from `signTransaction`; returns the raw `r`
and `s` magnitude slices. -/
def parseDERSignature (b : List Nat) : Except String (List Nat × List Nat) :=
  if b[0]? ≠ some 0x30 then
    .error "Invalid DER signature: expected SEQUENCE (0x30)"
  else if b[2]? ≠ some 0x02 then
    .error "Invalid DER signature: expected INTEGER (0x02) for r"
  else
    match b[3]? with
    | none =>
      -- JS: rLength is undefined, all later offsets are NaN and the s tag
      -- check fails.
      .error "Invalid DER signature: expected INTEGER (0x02) for s"
    | some rLen =>
      let rStart := if b[4]? = some 0x00 ∧ 1 < rLen then 5 else 4
      let r := jsSlice b rStart (4 + rLen)
      let offset := 4 + rLen
      if b.length ≤ offset ∨ b[offset]? ≠ some 0x02 then
        .error "Invalid DER signature: expected INTEGER (0x02) for s"
      else
        match b[offset + 1]? with
        | none =>
          -- JS: sLength is undefined, `slice(sStart, NaN)` is empty.
          .ok (r, [])
        | some sLen =>
          let sStart :=
            if b[offset + 2]? = some 0x00 ∧ 1 < sLen then offset + 3
            else offset + 2
          .ok (r, jsSlice b sStart (offset + 2 + sLen))

/-- Left-pad a magnitude to 32 bytes (signing.ts lines 366-374).  The
`Buffer.copy` into a fresh 32-byte buffer keeps only the first 32 bytes of
an over-long slice. -/
def padTo32 (l : List Nat) : List Nat :=
  if l.length ≤ 32 then List.replicate (32 - l.length) 0 ++ l else l.take 32

/-- The parser followed by the 32-byte padding step, exactly as the two are
composed in `signTransaction`. -/
def parseDERPadded (b : List Nat) : Except String (List Nat × List Nat) :=
  match parseDERSignature b with
  | .error e => .error e
  | .ok (r, s) => .ok (padTo32 r, padTo32 s)

/-- The structural conditions under which `parseDERSignature` throws: wrong
outer tag, wrong first INTEGER tag, an out-of-range `rLength` read, or a
missing/mismatched INTEGER tag at the computed `s` offset. -/
def derParseRejects (b : List Nat) : Prop :=
  b[0]? ≠ some 0x30 ∨ b[2]? ≠ some 0x02 ∨
    match b[3]? with
    | none => True
    | some rLen => b.length ≤ 4 + rLen ∨ b[4 + rLen]? ≠ some 0x02

/-! ### Low-s canonicalization (signing.ts lines 376-394; identical logic at
lines 823-833 of the second revision) -/

/-- secp256k1 group order, copied from the source constant. -/
def SECP256K1_N : Nat :=
  0xFFFFFFFFFFFFFFFFFFFFFFFFFFFFFFFEBAAEDCE6AF48A03BBFD25E8CD0364141

/-- Canonicalize the padded `s` component: when `s > N / 2` (BigInt division
truncates, as does `Nat` division) replace it with the 32-byte big-endian
encoding of `N - s`; the Bool records whether the flip happened
(`sWasFlipped`). -/
def canonicalizeS (sPadded : List Nat) : List Nat × Bool :=
  let sBigInt := bytesToNat sPadded
  if SECP256K1_N / 2 < sBigInt then
    (natToBytesBE 32 (SECP256K1_N - sBigInt), true)
  else
    (sPadded, false)

/-! ### Recovery-id search (signTransaction, signing.ts lines 396-463)

The source tries candidate ids in a loop; for each candidate it builds a
signed-transaction object via the external transaction library
(`Transaction.fromTxData` / `FeeMarketEIP1559Transaction.fromTxData`, which
throws on structurally invalid data) and returns the serialization of the
first candidate whose construction does not throw.  No candidate is ever
compared against the signer address: `signTransaction` never recovers a
public key and never fetches the expected signer. -/

/-- Legacy candidate recovery ids: `recoveryIdStart/End` in the source give
`{2,3}` when `s` was flipped and `{0,1}` otherwise. -/
def legacyCandidates (sWasFlipped : Bool) : List Nat :=
  if sWasFlipped then [2, 3] else [0, 1]

/-- EIP-1559 candidate parities: the source loops `yParity` over `0, 1`
(independently of the flip flag, which is not consulted on this path). -/
def typedCandidates : List Nat := [0, 1]

/-- Legacy `v` encoding: `v = chainId * 2 + 35 + recoveryId`. -/
def legacyV (chainId recoveryId : Nat) : Nat := chainId * 2 + 35 + recoveryId

/-- The candidate loop: `tryConstruct` stands for the external library call
(construct + serialize); the loop returns the first successful result,
otherwise it rethrows mentioning the last construction error, or a generic
message when no error was recorded. -/
def firstConstructed {α : Type} (tryConstruct : Nat → Except String α) :
    List Nat → Option String → Except String α
  | [], lastError =>
    .error (match lastError with
      | some m => "Could not construct signed transaction: " ++ m
      | none => "Could not construct signed transaction (tried all recovery IDs)")
  | c :: rest, _ =>
    match tryConstruct c with
    | .ok signedTx => .ok signedTx
    | .error e => firstConstructed tryConstruct rest (some e)

/-- Legacy recovery loop: candidates chosen by the flip flag, each encoded
as `v = chainId*2 + 35 + recoveryId` before construction. -/
def resolveLegacyRecovery {α : Type} (chainId : Nat)
    (tryConstruct : Nat → Except String α) (sWasFlipped : Bool) :
    Except String α :=
  firstConstructed (fun recoveryId => tryConstruct (legacyV chainId recoveryId))
    (legacyCandidates sWasFlipped) none

/-- EIP-1559 recovery loop over `yParity` in `{0, 1}`. -/
def resolveTypedRecovery {α : Type} (tryConstruct : Nat → Except String α) :
    Except String α :=
  firstConstructed tryConstruct typedCandidates none

/-- Concrete stand-in for the address that algebraic public-key recovery
would derive for each candidate id in the C1 scenario — chosen so that no
candidate derives the expected signer. -/
def demoRecoveredAddress : Nat → Nat := fun _ => 0

/-- Concrete expected signer address for the C1 scenario. -/
def demoExpectedSigner : Nat := 1

/-! ### Network-read fallbacks (constants.ts; fetchNonceIfNeeded, signing.ts
lines 22-48; gas handling, lines 189-244)

Each network read sits in a try/catch whose catch branch logs a console
warning and substitutes a default value; the thrown transport error is
modelled as the `Except.error` case of the oracle parameter. -/

/-- CHAIN_RPC_URLS from constants.ts. -/
def CHAIN_RPC_URLS : List (Nat × String) :=
  [(1, "https://eth.llamarpc.com"),
   (137, "https://polygon-rpc.com"),
   (56, "https://bsc-dataseed.binance.org/"),
   (43114, "https://api.avax.network/ext/bc/C/rpc"),
   (250, "https://rpc.ftm.tools/"),
   (42161, "https://arb1.arbitrum.io/rpc"),
   (10, "https://mainnet.optimism.io"),
   (8453, "https://mainnet.base.org"),
   (5, "https://goerli.infura.io/v3/9aa3d95b3bc440fa88ea12eaa4456161"),
   (11155111, "https://sepolia.infura.io/v3/9aa3d95b3bc440fa88ea12eaa4456161"),
   (80001, "https://rpc-mumbai.maticvigil.com"),
   (97, "https://data-seed-prebsc-1-s1.binance.org:8545"),
   (43113, "https://api.avax-test.network/ext/bc/C/rpc"),
   (421611, "https://rinkeby.arbitrum.io/rpc"),
   (84532, "https://sepolia.base.org")]

/-- Model of `getDefaultRpcUrl`: table lookup, `undefined` when the chain id
is absent or `0` (JS falsy). -/
def getDefaultRpcUrl (chainId : Option Nat) : Option String :=
  match chainId with
  | some c =>
    if c ≠ 0 then (CHAIN_RPC_URLS.find? (fun p => p.1 == c)).map (fun p => p.2)
    else none
  | none => none

/-- Model of the in-try resolution `transaction.rpcUrl ||
getDefaultRpcUrl(transaction.chainId)`. -/
def resolveRpcUrl (rpcUrl : Option String) (chainId : Option Nat) : Option String :=
  if truthyStr rpcUrl then rpcUrl else getDefaultRpcUrl chainId

/-- Model of `fetchNonceIfNeeded`: the nonce finally stored on the draft.
`networkNonce` stands for the `getEthereumAddress` +
`web3.eth.getTransactionCount` round-trip; its error case is the thrown
transport error, which the source catches, logs as a warning, and replaces
by the fallback nonce `0` (also used when no RPC URL resolves). -/
def fetchNonceIfNeeded (nonce : Option Nat) (rpcUrl : Option String)
    (chainId : Option Nat) (networkNonce : Except String Nat) : Nat :=
  match nonce with
  | some n => n
  | none =>
    if truthyStr rpcUrl || truthyNat chainId then
      match resolveRpcUrl rpcUrl chainId with
      | some _ =>
        match networkNonce with
        | .ok n => n
        | .error _ => 0
      | none => 0
    else 0

/-- Model of the gas-limit resolution (signing.ts lines 189-212): caller
value if truthy, otherwise the network estimate, falling back to the
default "21000" when the estimate throws or no RPC URL resolves. -/
def resolveGasLimit (gasLimit : Option String) (rpcUrl : Option String)
    (chainId : Option Nat) (estimated : Except String Nat) : String :=
  if truthyStr gasLimit then gasLimit.getD ""
  else if truthyStr rpcUrl || truthyNat chainId then
    match resolveRpcUrl rpcUrl chainId with
    | some _ =>
      match estimated with
      | .ok n => toString n
      | .error _ => "21000"
    | none => "21000"
  else "21000"

/-- Model of the legacy gas-price resolution (signing.ts lines 226-244):
caller value if truthy, otherwise `web3.eth.getGasPrice()`, falling back to
1 gwei (`"1000000000"`) when the read throws or no RPC URL resolves. -/
def resolveGasPrice (gasPrice : Option String) (rpcUrl : Option String)
    (chainId : Option Nat) (networkGasPrice : Except String Nat) : String :=
  if truthyStr gasPrice then gasPrice.getD ""
  else if truthyStr rpcUrl || truthyNat chainId then
    match resolveRpcUrl rpcUrl chainId with
    | some _ =>
      match networkGasPrice with
      | .ok p => toString p
      | .error _ => "1000000000"
    | none => "1000000000"
  else "1000000000"

/-! ### Fee-model selection (signTransaction, signing.ts lines 214-299, and
the second-revision fee logic at lines 677-751) -/

/-- The caller-facing transaction interface (`EthereumTransaction` in
signing.ts); the source field named `to` is rendered `toAddr` here because
`to` is reserved in Lean. -/
structure EthereumTransaction where
  toAddr : String
  value : Option String := none
  data : Option String := none
  nonce : Option Nat := none
  gasLimit : Option String := none
  gasPrice : Option String := none
  maxFeePerGas : Option String := none
  maxPriorityFeePerGas : Option String := none
  chainId : Option Nat := none
  rpcUrl : Option String := none

/-- Line 217: `useEIP1559 = !!(transaction.maxFeePerGas &&
transaction.maxPriorityFeePerGas)`. -/
def useEIP1559 (t : EthereumTransaction) : Bool :=
  truthyStr t.maxFeePerGas && truthyStr t.maxPriorityFeePerGas

/-- The txData object handed to the transaction library (first revision,
lines 270-299): the typed literal carries the two EIP-1559 fee keys and no
`gasPrice` key; the legacy literal carries `gasPrice` and no typed fee
keys.  Absent keys are `none`. -/
structure TxData where
  nonce : String
  gasLimit : String
  toAddr : String
  value : String
  data : List Nat
  chainId : Nat
  gasPrice : Option String := none
  maxFeePerGas : Option String := none
  maxPriorityFeePerGas : Option String := none

/-- Builds the unsigned txData literal of the first revision.  `toHex`
stands for `Web3.utils.toHex`; `resolvedGasPrice` is the legacy gas price
resolved earlier (`tx.gasPrice ? toHex(tx.gasPrice) : s!0x0`). -/
def buildUnsignedTxData (toHex : String → String) (t : EthereumTransaction)
    (nonce gasLimit toAddr value : String) (dataBytes : List Nat)
    (chainId : Nat) (resolvedGasPrice : Option String) : TxData :=
  if useEIP1559 t then
    { nonce, gasLimit, toAddr, value, data := dataBytes, chainId,
      maxFeePerGas := some (toHex (t.maxFeePerGas.getD "")),
      maxPriorityFeePerGas := some (toHex (t.maxPriorityFeePerGas.getD "")) }
  else
    { nonce, gasLimit, toAddr, value, data := dataBytes, chainId,
      gasPrice := some (if truthyStr resolvedGasPrice
        then toHex (resolvedGasPrice.getD "") else "0x0") }

/-- The gas-related fields of the tx object the second revision passes to
`ethers.Transaction.from` for serialization. -/
structure Tx2 where
  gasLimit : Option String := none
  gasPrice : Option String := none
  maxFeePerGas : Option String := none
  maxPriorityFeePerGas : Option String := none

/-- The catch branch of the second-revision fee logic (lines 716-725):
default the gas limit to 21000 when the caller did not supply one (a
caller-supplied one was already assigned inside the try), and the gas price
to 1 gwei when the caller did not supply one (a caller-supplied one was
*not* yet assigned, so it stays absent). -/
def rev2CatchDefaults (t : EthereumTransaction) : Tx2 :=
  { gasLimit := if truthyStr t.gasLimit then t.gasLimit else some "21000",
    gasPrice := if truthyStr t.gasPrice then none else some "1000000000" }

/-- The second-revision fee assignment (signing.ts lines 677-751).
`estimated` is `provider.estimateGas`, `feeData` is `provider.getFeeData()`
returning `(maxFeePerGas, maxPriorityFeePerGas, gasPrice)`; the error cases
are thrown transport errors (handled by the catch branch).  After the
gas-limit/gas-price block, lines 746-751 unconditionally overlay the
caller-supplied EIP-1559 fields on top of whatever was already assigned. -/
def rev2AssignFees (t : EthereumTransaction) (estimated : Except String String)
    (feeData : Except String (Option String × Option String × Option String)) :
    Tx2 :=
  let base : Tx2 :=
    if !(truthyStr t.gasLimit && truthyStr t.gasPrice) then
      if truthyStr t.rpcUrl || truthyNat t.chainId then
        match resolveRpcUrl t.rpcUrl t.chainId with
        | some _ =>
          match (if truthyStr t.gasLimit
                 then Except.ok (t.gasLimit.getD "") else estimated) with
          | .error _ => rev2CatchDefaults t
          | .ok gl =>
            match feeData with
            | .error _ => rev2CatchDefaults t
            | .ok (maxFee, maxPrio, gasPrice) =>
              if maxFee.isSome && maxPrio.isSome then
                { gasLimit := some gl, maxFeePerGas := maxFee,
                  maxPriorityFeePerGas := maxPrio }
              else if gasPrice.isSome then
                { gasLimit := some gl, gasPrice := gasPrice }
              else
                { gasLimit := some gl,
                  gasPrice := some (if truthyStr t.gasPrice
                    then t.gasPrice.getD "" else "1000000000") }
        | none => {}
      else
        { gasLimit := if truthyStr t.gasLimit then none else some "21000",
          gasPrice := if truthyStr t.gasPrice then none else some "1000000000" }
    else
      { gasLimit := t.gasLimit, gasPrice := t.gasPrice }
  { base with
    maxFeePerGas :=
      if truthyStr t.maxFeePerGas then t.maxFeePerGas else base.maxFeePerGas,
    maxPriorityFeePerGas :=
      if truthyStr t.maxPriorityFeePerGas then t.maxPriorityFeePerGas
      else base.maxPriorityFeePerGas }

/-- Concrete caller input for the C4 counterexample: legacy gas price and
both typed fee fields supplied together. -/
def c4Rev2Input : EthereumTransaction :=
  { toAddr := "0x000000000000000000000000000000000000dEaD",
    gasLimit := some "21000",
    gasPrice := some "1000000000",
    maxFeePerGas := some "2000000000",
    maxPriorityFeePerGas := some "100000000" }

/-! ### PKCS#8 key-material encoding (privateKeyToPKCS8, setup.ts lines
25-81) -/

/-- OID 1.2.840.10045.2.1 (id-ecPublicKey), copied from the source. -/
def EC_PUBLIC_KEY_OID : List Nat := [0x2a, 0x86, 0x48, 0xce, 0x3d, 0x02, 0x01]

/-- OID 1.3.132.0.10 (secp256k1), copied from the source. -/
def SECP256K1_OID : List Nat := [0x2b, 0x81, 0x04, 0x00, 0x0a]

/-- DER length encoding from setup.ts: short form or two/three-byte long
form; the source shifts `len >> 8` and masks `len & 0xff`, which are `/
256` and `% 256`. -/
def encodeLength (len : Nat) : Except String (List Nat) :=
  if len < 0x80 then .ok [len]
  else if len < 0x100 then .ok [0x81, len]
  else if len < 0x10000 then .ok [0x82, len / 256, len % 256]
  else .error "Length too large"

/-- Model of `encodeTLV` from setup.ts: tag byte, encoded length, value
bytes. -/
def encodeTLV (tag : Nat) (value : List Nat) : Except String (List Nat) :=
  match encodeLength value.length with
  | .error e => .error e
  | .ok len => .ok (tag :: len ++ value)

/-- Model of `privateKeyToPKCS8` from setup.ts: wraps a raw 32-byte scalar
as PrivateKeyInfo(INTEGER 0, AlgorithmIdentifier(id-ecPublicKey,
secp256k1), OCTET STRING(ECPrivateKey(INTEGER 1, OCTET STRING(key)))),
throwing when the input is not exactly 32 bytes. -/
def privateKeyToPKCS8 (privateKeyBytes : List Nat) : Except String (List Nat) :=
  if privateKeyBytes.length ≠ 32 then
    .error "Private key must be exactly 32 bytes"
  else do
    let version ← encodeTLV 0x02 [0x01]
    let privateKeyOctet ← encodeTLV 0x04 privateKeyBytes
    let ecPrivateKeySeq ← encodeTLV 0x30 (version ++ privateKeyOctet)
    let ecPublicKeyOid ← encodeTLV 0x06 EC_PUBLIC_KEY_OID
    let secp256k1Oid ← encodeTLV 0x06 SECP256K1_OID
    let algorithmId ← encodeTLV 0x30 (ecPublicKeyOid ++ secp256k1Oid)
    let pkcs8Version ← encodeTLV 0x02 [0x00]
    let privateKeyOctetString ← encodeTLV 0x04 ecPrivateKeySeq
    encodeTLV 0x30 (pkcs8Version ++ algorithmId ++ privateKeyOctetString)

/-- The fixed 32-byte DER header of the PKCS#8 structure built for a
32-byte scalar; the scalar itself follows verbatim as the final 32 bytes. -/
def pkcs8Header : List Nat :=
  [0x30, 0x3e,
   0x02, 0x01, 0x00,
   0x30, 0x10,
   0x06, 0x07, 0x2a, 0x86, 0x48, 0xce, 0x3d, 0x02, 0x01,
   0x06, 0x05, 0x2b, 0x81, 0x04, 0x00, 0x0a,
   0x04, 0x27,
   0x30, 0x25,
   0x02, 0x01, 0x01,
   0x04, 0x20]

/-! ### PKCS#8 decoding

Modelled from the spec: the repository contains no PKCS#8 decoder; the spec
defines the round-trip `PKCS8Decode(KeyMaterialEncoder.encode(scalar)) ==
scalar` against the ASN.1 codec contract `readTLV(bytes, offset) -> (tag,
length, valueSlice, nextOffset)` with short-form and two-byte long-form
lengths, failing when an expected tag mismatches or a declared length
exceeds the remaining buffer. -/

/-- Modelled from the spec: `readTLV` of the ASN.1 codec (spec section 4.1);
returns `(tag, value, rest)` and fails on truncation. -/
def readTLV (b : List Nat) : Option (Nat × List Nat × List Nat) :=
  match b with
  | tag :: l :: rest =>
    if l < 0x80 then
      if rest.length < l then none else some (tag, rest.take l, rest.drop l)
    else if l = 0x81 then
      match rest with
      | l1 :: r2 =>
        if r2.length < l1 then none else some (tag, r2.take l1, r2.drop l1)
      | [] => none
    else if l = 0x82 then
      match rest with
      | h1 :: h2 :: r2 =>
        let n := h1 * 256 + h2
        if r2.length < n then none else some (tag, r2.take n, r2.drop n)
      | _ => none
    else none
  | _ => none

/-- Modelled from the spec: read one TLV and check its tag. -/
def expectTLV (tag : Nat) (b : List Nat) : Option (List Nat × List Nat) :=
  match readTLV b with
  | some (t, v, rest) => if t = tag then some (v, rest) else none
  | none => none

/-- Modelled from the spec: `PKCS8Decode` walks PrivateKeyInfo(INTEGER,
AlgorithmIdentifier SEQUENCE, OCTET STRING(ECPrivateKey(INTEGER, OCTET
STRING(key)))) and returns the inner key bytes. -/
def pkcs8Decode (b : List Nat) : Option (List Nat) := do
  let (outer, _) ← expectTLV 0x30 b
  let (_, r1) ← expectTLV 0x02 outer
  let (_, r2) ← expectTLV 0x30 r1
  let (ecSeq, _) ← expectTLV 0x04 r2
  let (ecBody, _) ← expectTLV 0x30 ecSeq
  let (_, r3) ← expectTLV 0x02 ecBody
  let (key, _) ← expectTLV 0x04 r3
  pure key

/-! ### Public-key extraction and address derivation (getPublicKey,
signing.ts lines 53-128; getEthereumAddress, lines 133-147) -/

/-- Position reached by the while-loop scanning from offset 2 for the first
0x03 byte (the BIT STRING tag); equals the buffer length when there is
none. -/
def bitStringOffset (b : List Nat) : Nat :=
  2 + ((b.drop 2).takeWhile (fun x => x != 3)).length

/-- The format dispatch of `getPublicKey` (lines 70-114): raw passthrough
for a leading 0x04; for a leading 0x30, scan for the BIT STRING, skip its
tag and length byte, then accept `00 04 …` (unused-bits byte stripped) or
`04 …` directly, slicing 65 bytes; anything else throws.  The source
re-checks `publicKeyBytes[offset] === 0x30` at offset 0 inside this branch
(always true here) and reads an unused `bitStringLength` variable; on a
non-0x04/0x30 first byte the thrown message interpolates the byte in hex
(an empty buffer makes the interpolation itself throw a TypeError, still an
error). -/
def parsePublicKeyBuffer (b : List Nat) : Except String (List Nat) :=
  if b[0]? = some 0x04 then .ok b
  else if b[0]? = some 0x30 then
    let off := bitStringOffset b
    if b[off]? = some 0x03 then
      if b[off + 2]? = some 0x00 ∧ b[off + 3]? = some 0x04 then
        .ok (jsSlice b (off + 3) (off + 68))
      else if b[off + 2]? = some 0x04 then
        .ok (jsSlice b (off + 2) (off + 67))
      else .error "Unexpected DER format: could not find public key"
    else .error "Unexpected DER format: BIT STRING not found"
  else
    match b[0]? with
    | some b0 =>
      .error ("Unexpected public key format: starts with 0x" ++ natToHexStr b0)
    | none => .error "Unexpected public key format"

/-- The full extraction: format dispatch followed by the final
`publicKey[0] !== 0x04` check (lines 117-119). -/
def getPublicKeyBytes (b : List Nat) : Except String (List Nat) :=
  match parsePublicKeyBuffer b with
  | .error e => .error e
  | .ok publicKey =>
    if publicKey[0]? ≠ some 0x04 then
      .error "Unexpected public key format: expected 0x04"
    else .ok publicKey

/-- Model of `getEthereumAddress`: drop the 0x04 prefix, Keccak-256 the
64 coordinate bytes, keep the last 40 hex characters of the hash
(`hash.slice(-40)`), and checksum-case the result.  `keccak256` and
`toChecksumAddress` are the Web3 collaborators. -/
def getEthereumAddress (keccak256 : List Nat → List Nat)
    (toChecksumAddress : String → String) (publicKeyResponse : List Nat) :
    Except String String :=
  match getPublicKeyBytes publicKeyResponse with
  | .error e => .error e
  | .ok pk =>
    let hashHex := bytesToHex (keccak256 (pk.drop 1))
    .ok (toChecksumAddress ("0x" ++ hashHex.drop (hashHex.length - 40)))

/-! ### Message signing (signMessage, signing.ts lines 469-500; the second
revision at lines 854-881 differs only in using `ethers.hashMessage` for
the same EIP-191 digest and returns the identical expression) -/

/-- The EIP-191 preimage built by `signMessage` (lines 476-480): byte 0x19,
the ASCII prefix, the decimal byte length, then the message bytes. -/
def eip191Preimage (messageBuffer : List Nat) : List Nat :=
  0x19 :: ("Ethereum Signed Message:\n".data.map Char.toNat) ++
    ((Nat.toDigits 10 messageBuffer.length).map Char.toNat) ++ messageBuffer

/-- Model of `signMessage`: Keccak-256 the EIP-191 preimage, send the
digest to KMS (`kmsSign`; `none` models a response without a Signature
field), and return the string 0x followed by the hex of the raw DER
signature bytes — there is no canonicalization and no recovery-id
computation on this path. -/
def signMessage (keccak256 : List Nat → List Nat)
    (kmsSign : List Nat → Option (List Nat)) (messageBuffer : List Nat) :
    Except String String :=
  let messageBytes := keccak256 (eip191Preimage messageBuffer)
  match kmsSign messageBytes with
  | none => .error "Failed to sign message with KMS"
  | some sig => .ok ("0x" ++ bytesToHex sig)

/-! ## Helper lemmas -/

theorem bytesToNat_append_singleton (l : List Nat) (b : Nat) :
    bytesToNat (l ++ [b]) = bytesToNat l * 256 + b := by
  simp [bytesToNat, List.foldl_append]

theorem bytesToNat_natToBytesBE (w n : Nat) :
    bytesToNat (natToBytesBE w n) = n % 256 ^ w := by
  induction w generalizing n with
  | zero => simp [natToBytesBE, bytesToNat, Nat.mod_one]
  | succ k ih =>
    rw [natToBytesBE, bytesToNat_append_singleton, ih]
    rw [Nat.pow_succ, Nat.mul_comm (256 ^ k) 256, Nat.mod_mul]
    omega

theorem length_natToBytesBE (w n : Nat) : (natToBytesBE w n).length = w := by
  induction w generalizing n with
  | zero => simp [natToBytesBE]
  | succ k ih => simp [natToBytesBE, ih]

theorem length_padTo32 (l : List Nat) : (padTo32 l).length = 32 := by
  unfold padTo32
  split <;> simp <;> omega

theorem privateKeyToPKCS8_eq (k : List Nat) (h : k.length = 32) :
    privateKeyToPKCS8 k = .ok (pkcs8Header ++ k) := by
  simp [privateKeyToPKCS8, encodeTLV, encodeLength, h, EC_PUBLIC_KEY_OID,
    SECP256K1_OID, pkcs8Header, bind, Except.bind]

theorem pkcs8Decode_roundtrip (k : List Nat) (h : k.length = 32) :
    pkcs8Decode (pkcs8Header ++ k) = some k := by
  have ht : k.take 32 = k := by rw [← h]; exact List.take_length k
  have hd : k.drop 32 = [] := by rw [← h]; exact List.drop_length k
  simp [pkcs8Decode, expectTLV, readTLV, pkcs8Header, h, ht, hd, bind]

/-! ## Claim theorems -/

/-- C2: for every `s` value parsed by the canonicalizer that is a valid
scalar (`s < N`), if `s > N/2` the output equals `N - s` with `flipped =
true`; if `s ≤ N/2` the output is `s` unchanged with `flipped = false`; in
both cases the output value is at most `N/2`. -/
theorem c2_canonicalizeS (sPadded : List Nat)
    (h : bytesToNat sPadded < SECP256K1_N) :
    (SECP256K1_N / 2 < bytesToNat sPadded →
      (bytesToNat (canonicalizeS sPadded).1, (canonicalizeS sPadded).2) =
        (SECP256K1_N - bytesToNat sPadded, true)) ∧
    (bytesToNat sPadded ≤ SECP256K1_N / 2 →
      canonicalizeS sPadded = (sPadded, false)) ∧
    bytesToNat (canonicalizeS sPadded).1 ≤ SECP256K1_N / 2 := by
  have hN : SECP256K1_N < 256 ^ 32 := by norm_num [SECP256K1_N]
  by_cases hs : SECP256K1_N / 2 < bytesToNat sPadded
  · have hmod : bytesToNat (natToBytesBE 32 (SECP256K1_N - bytesToNat sPadded)) =
        SECP256K1_N - bytesToNat sPadded := by
      rw [bytesToNat_natToBytesBE]
      exact Nat.mod_eq_of_lt (by omega)
    refine ⟨fun _ => ?_, fun hle => absurd hs (by omega), ?_⟩
    · simp only [canonicalizeS, if_pos hs, hmod]
    · simp only [canonicalizeS, if_pos hs, hmod]
      omega
  · refine ⟨fun hgt => absurd hgt hs, fun _ => ?_, ?_⟩
    · simp only [canonicalizeS, if_neg hs]
    · simp only [canonicalizeS, if_neg hs]
      omega

/-- Witness for C2 at the concrete flipped input `s = N - 1`. -/
theorem c2_canonicalizeS_witness :
    bytesToNat (natToBytesBE 32 (SECP256K1_N - 1)) < SECP256K1_N ∧
    ((SECP256K1_N / 2 < bytesToNat (natToBytesBE 32 (SECP256K1_N - 1)) →
      (bytesToNat (canonicalizeS (natToBytesBE 32 (SECP256K1_N - 1))).1,
        (canonicalizeS (natToBytesBE 32 (SECP256K1_N - 1))).2) =
        (SECP256K1_N - bytesToNat (natToBytesBE 32 (SECP256K1_N - 1)), true)) ∧
    (bytesToNat (natToBytesBE 32 (SECP256K1_N - 1)) ≤ SECP256K1_N / 2 →
      canonicalizeS (natToBytesBE 32 (SECP256K1_N - 1)) =
        (natToBytesBE 32 (SECP256K1_N - 1), false)) ∧
    bytesToNat (canonicalizeS (natToBytesBE 32 (SECP256K1_N - 1))).1 ≤
      SECP256K1_N / 2) :=
  ⟨by decide, c2_canonicalizeS (natToBytesBE 32 (SECP256K1_N - 1)) (by decide)⟩

/-- C7 counterexample: the DER signature `30 04 02 00 02 01 07` contains a
zero-length `r` INTEGER, which the claim says must be rejected, yet the
parser succeeds with `r = []`: declared integer lengths are never validated
against the buffer. -/
theorem c7_zero_length_integer_parses :
    parseDERSignature [0x30, 0x04, 0x02, 0x00, 0x02, 0x01, 0x07] =
      .ok ([], [0x07]) := by
  rfl

/-- C7 (amended): parsing fails exactly when the outer tag is not SEQUENCE,
the first nested tag (at index 2) is not INTEGER, or the INTEGER tag for
`s` at the offset computed from the declared `r` length is absent or
mismatched; declared lengths are otherwise not checked against the buffer
(truncated or zero-length integers parse successfully).  On success both
magnitudes are left-padded to exactly 32 bytes. -/
theorem c7_parseDER_characterization (b : List Nat) :
    ((∃ e, parseDERSignature b = .error e) ↔ derParseRejects b) ∧
    (∀ r s, parseDERPadded b = .ok (r, s) → r.length = 32 ∧ s.length = 32) := by
  constructor
  · by_cases h0 : b[0]? = some 0x30
    · by_cases h2 : b[2]? = some 0x02
      · cases h3 : b[3]? with
        | none => simp [parseDERSignature, derParseRejects, h0, h2, h3]
        | some rLen =>
          by_cases hoff : b.length ≤ 4 + rLen ∨ ¬b[4 + rLen]? = some 0x02
          · simp [parseDERSignature, derParseRejects, h0, h2, h3, hoff]
          · cases hsl : b[4 + rLen + 1]? with
            | none =>
              simp [parseDERSignature, derParseRejects, h0, h2, h3, hoff, hsl]
            | some sLen =>
              simp [parseDERSignature, derParseRejects, h0, h2, h3, hoff, hsl]
      · simp [parseDERSignature, derParseRejects, h0, h2]
    · simp [parseDERSignature, derParseRejects, h0]
  · intro r s hok
    unfold parseDERPadded at hok
    cases hp : parseDERSignature b with
    | error e => rw [hp] at hok; exact absurd hok (by simp)
    | ok rs =>
      rw [hp] at hok
      obtain ⟨r0, s0⟩ := rs
      simp only [Except.ok.injEq, Prod.mk.injEq] at hok
      obtain ⟨hr, hs⟩ := hok
      rw [← hr, ← hs]
      exact ⟨length_padTo32 r0, length_padTo32 s0⟩

/-- Witness for C7 at the concrete well-formed signature `30 06 02 01 05 02
01 07`. -/
theorem c7_parseDER_witness :
    parseDERPadded [0x30, 0x06, 0x02, 0x01, 0x05, 0x02, 0x01, 0x07] =
      .ok (padTo32 [0x05], padTo32 [0x07]) ∧
    (padTo32 [0x05]).length = 32 ∧ (padTo32 [0x07]).length = 32 :=
  ⟨by rfl,
    (c7_parseDER_characterization
      [0x30, 0x06, 0x02, 0x01, 0x05, 0x02, 0x01, 0x07]).2
      (padTo32 [0x05]) (padTo32 [0x07]) (by rfl)⟩

/-- C5: for every 32-byte scalar, the PKCS#8 structure built by
`privateKeyToPKCS8` is the fixed PrivateKeyInfo(INTEGER 0,
AlgorithmIdentifier(id-ecPublicKey OID, secp256k1 OID), OCTET
STRING(ECPrivateKey(INTEGER 1, OCTET STRING(scalar)))) header followed by
the scalar verbatim, and decoding it recovers exactly the input scalar. -/
theorem c5_pkcs8_roundtrip (k : List Nat) (h : k.length = 32) :
    ∃ der, privateKeyToPKCS8 k = .ok der ∧ der = pkcs8Header ++ k ∧
      pkcs8Decode der = some k :=
  ⟨pkcs8Header ++ k, privateKeyToPKCS8_eq k h, rfl, pkcs8Decode_roundtrip k h⟩

/-- Witness for C5 at the concrete scalar of 32 bytes 0x11. -/
theorem c5_pkcs8_roundtrip_witness :
    (List.replicate 32 0x11).length = 32 ∧
    ∃ der, privateKeyToPKCS8 (List.replicate 32 0x11) = .ok der ∧
      der = pkcs8Header ++ List.replicate 32 0x11 ∧
      pkcs8Decode der = some (List.replicate 32 0x11) :=
  ⟨by decide, c5_pkcs8_roundtrip (List.replicate 32 0x11) (by decide)⟩

/-- C6: every input whose length is not exactly 32 bytes fails with the
invalid-scalar-length error (nothing is truncated or padded — no output is
produced at all), and every 32-byte input succeeds regardless of its
numeric value, embedding the input verbatim. -/
theorem c6_pkcs8_length_check (k : List Nat) :
    (k.length ≠ 32 →
      privateKeyToPKCS8 k = .error "Private key must be exactly 32 bytes") ∧
    (k.length = 32 →
      ∃ der, privateKeyToPKCS8 k = .ok der ∧ der = pkcs8Header ++ k) := by
  constructor
  · intro hne
    simp [privateKeyToPKCS8, hne]
  · intro h
    exact ⟨pkcs8Header ++ k, privateKeyToPKCS8_eq k h, rfl⟩

/-- Witness for C6 at 31-, 33- and 32-byte concrete inputs. -/
theorem c6_pkcs8_length_check_witness :
    ((List.replicate 31 0xaa).length ≠ 32 ∧
      privateKeyToPKCS8 (List.replicate 31 0xaa) =
        .error "Private key must be exactly 32 bytes") ∧
    ((List.replicate 33 0xaa).length ≠ 32 ∧
      privateKeyToPKCS8 (List.replicate 33 0xaa) =
        .error "Private key must be exactly 32 bytes") ∧
    ((List.replicate 32 0xaa).length = 32 ∧
      ∃ der, privateKeyToPKCS8 (List.replicate 32 0xaa) = .ok der ∧
        der = pkcs8Header ++ List.replicate 32 0xaa) :=
  ⟨⟨by decide, (c6_pkcs8_length_check (List.replicate 31 0xaa)).1 (by decide)⟩,
   ⟨by decide, (c6_pkcs8_length_check (List.replicate 33 0xaa)).1 (by decide)⟩,
   ⟨by decide, (c6_pkcs8_length_check (List.replicate 32 0xaa)).2 (by decide)⟩⟩

/-- C3: the recovery-id search space is `{2,3}` for legacy transactions
when `s` was flipped and `{0,1}` when it was not, each candidate encoded as
`v = chainId*2 + 35 + recoveryId`; for typed (EIP-1559) transactions the
candidates are `yParity` in `{0,1}` regardless of the flip (the typed
resolver does not take the flip flag at all). -/
theorem c3_recovery_search_space (chainId : Nat) (flipped : Bool) :
    legacyCandidates flipped = (if flipped then [2, 3] else [0, 1]) ∧
    typedCandidates = [0, 1] ∧
    (∀ recoveryId, legacyV chainId recoveryId = chainId * 2 + 35 + recoveryId) ∧
    (∀ tryConstruct : Nat → Except String String,
      resolveLegacyRecovery chainId tryConstruct flipped =
        firstConstructed
          (fun recoveryId => tryConstruct (chainId * 2 + 35 + recoveryId))
          (if flipped then [2, 3] else [0, 1]) none ∧
      resolveTypedRecovery tryConstruct =
        firstConstructed tryConstruct [0, 1] none) :=
  ⟨rfl, rfl, fun _ => rfl, fun _ => ⟨rfl, rfl⟩⟩

/-- C1: evidence that the recovery resolver never consults the expected
signer.  In the EIP-1559 path every candidate construction succeeds (the
transaction library cannot compare against a signer it is never given), so
with a recovered-address assignment under which no candidate derives the
expected signer the loop still returns the yParity-0 serialization instead
of failing — contradicting the claim that a candidate is accepted only when
its recovered address equals the expected signer and that a no-match run is
a hard error. -/
theorem c1_recovery_ignores_signer :
    (∀ c ∈ typedCandidates, demoRecoveredAddress c ≠ demoExpectedSigner) ∧
    resolveTypedRecovery (fun yParity => Except.ok yParity) = .ok 0 := by
  constructor
  · intro c _
    simp [demoRecoveredAddress, demoExpectedSigner]
  · rfl

/-- C4 (amended): in the first revision the typed envelope is selected
exactly when both `maxFeePerGas` and `maxPriorityFeePerGas` are present
(non-empty), otherwise the legacy envelope with `gasPrice` is built, and
the constructed txData never carries both fee models; the second revision
does not preserve this (see the counterexample). -/
theorem c4_fee_model_exclusive (toHex : String → String)
    (t : EthereumTransaction) (nonce gasLimit toAddr value : String)
    (dataBytes : List Nat) (chainId : Nat) (resolvedGasPrice : Option String) :
    ((buildUnsignedTxData toHex t nonce gasLimit toAddr value dataBytes chainId
        resolvedGasPrice).maxFeePerGas.isSome ∧
     (buildUnsignedTxData toHex t nonce gasLimit toAddr value dataBytes chainId
        resolvedGasPrice).maxPriorityFeePerGas.isSome ↔
      useEIP1559 t = true) ∧
    ((buildUnsignedTxData toHex t nonce gasLimit toAddr value dataBytes chainId
        resolvedGasPrice).gasPrice.isSome ↔ useEIP1559 t = false) ∧
    ¬((buildUnsignedTxData toHex t nonce gasLimit toAddr value dataBytes chainId
        resolvedGasPrice).gasPrice.isSome ∧
      ((buildUnsignedTxData toHex t nonce gasLimit toAddr value dataBytes chainId
        resolvedGasPrice).maxFeePerGas.isSome ∨
       (buildUnsignedTxData toHex t nonce gasLimit toAddr value dataBytes chainId
        resolvedGasPrice).maxPriorityFeePerGas.isSome)) := by
  cases h : useEIP1559 t <;> simp [buildUnsignedTxData, h]

/-- C4 counterexample: in the second revision, a caller supplying
`gasLimit`, a legacy `gasPrice` and both typed fee fields obtains a
transaction object that carries `gasPrice` and the typed fee pair
simultaneously — this object is what is handed to serialization. -/
theorem c4_rev2_carries_both_fee_models :
    (rev2AssignFees c4Rev2Input (.ok "21000")
        (.ok (none, none, none))).gasPrice.isSome = true ∧
    (rev2AssignFees c4Rev2Input (.ok "21000")
        (.ok (none, none, none))).maxFeePerGas.isSome = true ∧
    (rev2AssignFees c4Rev2Input (.ok "21000")
        (.ok (none, none, none))).maxPriorityFeePerGas.isSome = true := by
  refine ⟨by decide, by decide, by decide⟩

/-- C9 (amended): when a network read fails during a signing run, the core
catches the transport error, logs a console warning, and substitutes a
default value — nonce `0`, gas limit `"21000"`, gas price 1 gwei — instead
of surfacing the error; none of these resolution functions can return an
error at all. -/
theorem c9_network_failure_defaults (e u : String) (hu : u ≠ "") :
    fetchNonceIfNeeded none (some u) none (.error e) = 0 ∧
    resolveGasLimit none (some u) none (.error e) = "21000" ∧
    resolveGasPrice none (some u) none (.error e) = "1000000000" := by
  have ht : truthyStr (some u) = true := by
    simp [truthyStr, hu]
  refine ⟨?_, ?_, ?_⟩
  · simp [fetchNonceIfNeeded, resolveRpcUrl, ht, truthyNat]
  · simp [resolveGasLimit, resolveRpcUrl, ht, truthyNat, truthyStr]
    intro _
    split <;> rfl
  · simp [resolveGasPrice, resolveRpcUrl, ht, truthyNat, truthyStr]
    intro _
    split <;> rfl

/-- C9 counterexample: with a failing network read the draft simply
receives the defaults — the transport error string appears nowhere and no
error propagates, contradicting the claim that such failures are surfaced
with the underlying transport error preserved. -/
theorem c9_failure_swallowed_concretely :
    fetchNonceIfNeeded none (some "https://rpc.example.org") none
        (.error "ECONNREFUSED") = 0 ∧
    resolveGasLimit none (some "https://rpc.example.org") none
        (.error "ECONNREFUSED") = "21000" ∧
    resolveGasPrice none (some "https://rpc.example.org") none
        (.error "ECONNREFUSED") = "1000000000" :=
  ⟨by decide, by decide, by decide⟩

/-- Witness for C9 at concrete inputs. -/
theorem c9_network_failure_defaults_witness :
    ("https://node.example" ≠ "") ∧
    (fetchNonceIfNeeded none (some "https://node.example") none
        (.error "connection refused") = 0 ∧
     resolveGasLimit none (some "https://node.example") none
        (.error "connection refused") = "21000" ∧
     resolveGasPrice none (some "https://node.example") none
        (.error "connection refused") = "1000000000") :=
  ⟨by decide,
    c9_network_failure_defaults "connection refused" "https://node.example"
      (by decide)⟩

/-- C8: the deriver passes a buffer through untouched when its first byte
is 0x04; every successful extraction yields a key beginning with 0x04 (and
every other shape is an error); a DER-wrapped buffer is unwrapped at the
BIT STRING with its unused-bits byte stripped; and the returned address is
the checksum-cased last 20 bytes (40 hex characters) of Keccak-256 over the
64 coordinate bytes of the extracted key. -/
theorem c8_public_key_and_address (b : List Nat)
    (keccak256 : List Nat → List Nat) (toChecksumAddress : String → String) :
    (b[0]? = some 0x04 → getPublicKeyBytes b = .ok b) ∧
    (∀ pk, getPublicKeyBytes b = .ok pk → pk[0]? = some 0x04) ∧
    (b[0]? ≠ some 0x04 → b[0]? ≠ some 0x30 →
      ∃ e, getPublicKeyBytes b = .error e) ∧
    (b[0]? = some 0x30 → b[bitStringOffset b]? = some 0x03 →
      b[bitStringOffset b + 2]? = some 0x00 →
      b[bitStringOffset b + 3]? = some 0x04 →
      getPublicKeyBytes b =
        .ok (jsSlice b (bitStringOffset b + 3) (bitStringOffset b + 68))) ∧
    (∀ pk, getPublicKeyBytes b = .ok pk →
      getEthereumAddress keccak256 toChecksumAddress b =
        .ok (toChecksumAddress ("0x" ++
          (bytesToHex (keccak256 (pk.drop 1))).drop
            ((bytesToHex (keccak256 (pk.drop 1))).length - 40)))) := by
  refine ⟨?_, ?_, ?_, ?_, ?_⟩
  · intro h4
    have hp : parsePublicKeyBuffer b = .ok b := by
      simp [parsePublicKeyBuffer, h4]
    simp [getPublicKeyBytes, hp, h4]
  · intro pk h
    unfold getPublicKeyBytes at h
    cases hp : parsePublicKeyBuffer b with
    | error e => rw [hp] at h; exact absurd h (by simp)
    | ok q =>
      rw [hp] at h
      dsimp only at h
      split at h
      · exact absurd h (by simp)
      · rename_i hq
        simp only [Except.ok.injEq] at h
        subst h
        simpa using hq
  · intro h4 h30
    cases hb : b[0]? with
    | none =>
      exact ⟨"Unexpected public key format",
        by simp [getPublicKeyBytes, parsePublicKeyBuffer, hb]⟩
    | some b0 =>
      have hb4 : ¬(b0 = 0x04) := by
        intro hh
        rw [hh] at hb
        exact h4 hb
      have hb48 : ¬(b0 = 0x30) := by
        intro hh
        rw [hh] at hb
        exact h30 hb
      exact ⟨"Unexpected public key format: starts with 0x" ++ natToHexStr b0,
        by simp [getPublicKeyBytes, parsePublicKeyBuffer, hb, hb4, hb48]⟩
  · intro h30 hbit hz h4
    have h04 : ¬b[0]? = some 0x04 := by rw [h30]; simp
    have hp : parsePublicKeyBuffer b =
        .ok (jsSlice b (bitStringOffset b + 3) (bitStringOffset b + 68)) := by
      simp [parsePublicKeyBuffer, h04, h30, hbit, hz, h4]
    have hlen : bitStringOffset b + 68 - (bitStringOffset b + 3) = 65 := by
      omega
    have hhead :
        (jsSlice b (bitStringOffset b + 3) (bitStringOffset b + 68))[0]? =
          some 0x04 := by
      unfold jsSlice
      rw [hlen]
      rw [show ((b.drop (bitStringOffset b + 3)).take 65)[0]? =
          (b.drop (bitStringOffset b + 3))[0]? by
        simp [List.getElem?_take]]
      rw [List.getElem?_drop]
      simpa using h4
    simp [getPublicKeyBytes, hp, hhead]
  · intro pk h
    simp [getEthereumAddress, h]

/-- Witness for C8 at a concrete DER-wrapped buffer (clamped slice) with
identity collaborators. -/
theorem c8_public_key_and_address_witness :
    getPublicKeyBytes [0x30, 0x06, 0x03, 0x04, 0x00, 0x04, 0x07, 0x08] =
      .ok [0x04, 0x07, 0x08] ∧
    (([0x04, 0x07, 0x08] : List Nat)[0]? = some 0x04) ∧
    getEthereumAddress (fun l => l) (fun s => s)
      [0x30, 0x06, 0x03, 0x04, 0x00, 0x04, 0x07, 0x08] = .ok "0x0708" := by
  have h := c8_public_key_and_address
    [0x30, 0x06, 0x03, 0x04, 0x00, 0x04, 0x07, 0x08] (fun l => l) (fun s => s)
  have hok : getPublicKeyBytes [0x30, 0x06, 0x03, 0x04, 0x00, 0x04, 0x07, 0x08] =
      .ok [0x04, 0x07, 0x08] :=
    h.2.2.2.1 (by rfl) (by rfl) (by rfl) (by rfl)
  refine ⟨hok, h.2.1 [0x04, 0x07, 0x08] hok, ?_⟩
  have := h.2.2.2.2 [0x04, 0x07, 0x08] hok
  simpa using this

/-- C10: for every message and every KMS signature response, `signMessage`
returns exactly the string 0x followed by the lowercase hex encoding of the
raw DER signature bytes — no low-s canonicalization, no recovery id or `v`
component, no (r, s, v) re-encoding. -/
theorem c10_signMessage_returns_raw_der (keccak256 : List Nat → List Nat)
    (kmsSign : List Nat → Option (List Nat)) (messageBuffer sig : List Nat)
    (h : kmsSign (keccak256 (eip191Preimage messageBuffer)) = some sig) :
    signMessage keccak256 kmsSign messageBuffer =
      .ok ("0x" ++ bytesToHex sig) := by
  simp [signMessage, h]

/-- Witness for C10 at a concrete message and signature. -/
theorem c10_signMessage_witness :
    ((fun _ => some [0x30, 0xab] : List Nat → Option (List Nat))
        ((fun _ => List.replicate 32 0) (eip191Preimage [])) =
      some [0x30, 0xab]) ∧
    signMessage (fun _ => List.replicate 32 0) (fun _ => some [0x30, 0xab]) [] =
      .ok ("0x" ++ bytesToHex [0x30, 0xab]) :=
  ⟨rfl,
    c10_signMessage_returns_raw_der (fun _ => List.replicate 32 0)
      (fun _ => some [0x30, 0xab]) [] [0x30, 0xab] rfl⟩

end EthKmsSigner
